import Mathlib

set_option autoImplicit false
set_option maxRecDepth 8000

/-!
Shallow embedding of `scripts/run-citeproc-tests.py` from citeproc-typst:
fixture parsing, CSL-JSON to BibTeX conversion, Typst test generation,
the skip policy, execution-outcome classification, and the main loop.
Python dynamic values are modelled by `JValue`; raised exceptions are
modelled by `Except String`; the external `json` module and the external
`typst` process are passed in as explicit parameters.
-/

/-- A JSON-like value as produced by `json.loads`: the dynamic values the
Python script manipulates.  Objects keep key order as an association list. -/
inductive JValue where
  | null : JValue
  | bool : Bool → JValue
  | num : Int → JValue
  | str : String → JValue
  | arr : List JValue → JValue
  | obj : List (String × JValue) → JValue

/-- Python dict lookup (`d.get(k)`), over the association-list model. -/
def jLookup (kvs : List (String × JValue)) (k : String) : Option JValue :=
  match kvs with
  | [] => none
  | (key, v) :: rest => if key = k then some v else jLookup rest k

/-- Python truthiness of a JSON value (empty containers and empty strings,
zero and `None` are falsy). -/
def jTruthy : JValue → Bool
  | .null => false
  | .bool b => b
  | .num n => n != 0
  | .str s => !s.isEmpty
  | .arr xs => !xs.isEmpty
  | .obj kvs => !kvs.isEmpty

/-- Python truthiness of an optional JSON value (`None` is falsy). -/
def optTruthy : Option JValue → Bool
  | none => false
  | some v => jTruthy v

/-- Python truthiness of an optional string (`None` and `""` are falsy). -/
def truthyStr : Option String → Bool
  | none => false
  | some s => !s.isEmpty

/-- Whitespace characters removed by Python `str.strip()` (ASCII range). -/
def pyIsSpace (c : Char) : Bool :=
  c = ' ' || c = '\t' || c = '\n' || c = '\r' || c = '\x0b' || c = '\x0c'

/-- Strip leading and trailing whitespace from a character list. -/
def stripChars (cs : List Char) : List Char :=
  ((cs.dropWhile pyIsSpace).reverse.dropWhile pyIsSpace).reverse

/-- Python `str.strip()`. -/
def pyStrip (s : String) : String := String.mk (stripChars s.data)

/-- Split a character list at the first occurrence of `pat`, returning the
part before the occurrence and the part after it. -/
def splitFirst (pat : List Char) : List Char → Option (List Char × List Char)
  | [] => if pat.isEmpty then some ([], []) else none
  | c :: rest =>
    if pat.isPrefixOf (c :: rest) then some ([], (c :: rest).drop pat.length)
    else
      match splitFirst pat rest with
      | some (pre, post) => some (c :: pre, post)
      | none => none

/-- Python substring test `pat in hay`. -/
def containsSub (hay pat : String) : Bool := (splitFirst pat.data hay.data).isSome

/-- Translation of `extract_section` inside `parse_fixture`: regex search
`>>===== NAME =====>>(.+?)<<===== NAME =====<<` with DOTALL, i.e. the
leftmost open marker followed by the earliest close marker with at least
one character in between (the non-greedy `.+?` group), then `strip`. -/
def extract_section (content : String) (name : String) : Option String :=
  let openM := (">>===== " ++ name ++ " =====>>").data
  let closeM := ("<<===== " ++ name ++ " =====<<").data
  match splitFirst openM content.data with
  | none => none
  | some (_, afterOpen) =>
    match afterOpen with
    | [] => none
    | c :: rest =>
      match splitFirst closeM rest with
      | none => none
      | some (body, _) => some (String.mk (stripChars (c :: body)))

/-- The external `json` module, passed as an explicit parameter:
`loads = none` models a raised `json.JSONDecodeError`. -/
structure JsonLib where
  loads : String → Option JValue

/-- Translation of the `TestFixture` dataclass. -/
structure TestFixture where
  name : String
  mode : String
  result : String
  csl : String
  input_data : JValue
  citation_items : Option JValue := none
  citations : Option JValue := none
  abbreviations : Option JValue := none

/-- Decoding of one optional fixture section:
`json.loads(raw) if raw else None`, where a decode failure raises
(the exception is not caught for the optional sections). -/
def optLoad (J : JsonLib) (raw : Option String) : Except String (Option JValue) :=
  if truthyStr raw then
    match J.loads (raw.getD "") with
    | some v => .ok (some v)
    | none => .error "json.decoder.JSONDecodeError"
  else .ok none

/-- Translation of `parse_fixture`: extract the four required sections,
drop the fixture (returning `ok none`) when one is missing or empty or when
INPUT fails to decode; then decode the optional sections, where a decode
failure raises (propagates as `Except.error`). -/
def parse_fixture (J : JsonLib) (stem : String) (content : String) :
    Except String (Option TestFixture) :=
  let mode := extract_section content "MODE"
  let result := extract_section content "RESULT"
  let csl := extract_section content "CSL"
  let input_raw := extract_section content "INPUT"
  if !(truthyStr mode && truthyStr result && truthyStr csl && truthyStr input_raw) then
    .ok none
  else
    match J.loads (input_raw.getD "") with
    | none => .ok none
    | some input_data =>
      match optLoad J (extract_section content "CITATION-ITEMS") with
      | .error e => .error e
      | .ok citation_items =>
        match optLoad J (extract_section content "CITATIONS") with
        | .error e => .error e
        | .ok citations =>
          match optLoad J (extract_section content "ABBREVIATIONS") with
          | .error e => .error e
          | .ok abbreviations =>
            .ok (some {
              name := stem
              mode := mode.getD ""
              result := result.getD ""
              csl := csl.getD ""
              input_data := input_data
              citation_items := citation_items
              citations := citations
              abbreviations := abbreviations })

mutual

/-- Python `repr` of a JSON value, used by `str()` on nested containers. -/
def pyRepr : JValue → String
  | .null => "None"
  | .bool true => "True"
  | .bool false => "False"
  | .num n => toString n
  | .str s => "\x27" ++ s ++ "\x27"
  | .arr xs => "[" ++ pyReprList xs ++ "]"
  | .obj kvs => "\x7b" ++ pyReprObj kvs ++ "\x7d"

/-- Comma-separated reprs of list elements. -/
def pyReprList : List JValue → String
  | [] => ""
  | [v] => pyRepr v
  | v :: vs => pyRepr v ++ ", " ++ pyReprList vs

/-- Comma-separated reprs of dict entries. -/
def pyReprObj : List (String × JValue) → String
  | [] => ""
  | [(k, v)] => "\x27" ++ k ++ "\x27: " ++ pyRepr v
  | (k, v) :: kvs => "\x27" ++ k ++ "\x27: " ++ pyRepr v ++ ", " ++ pyReprObj kvs

end

/-- Effectful map over a list, short-circuiting on a raised exception:
the shape of each accumulating for loop in the script. -/
def exMap {α β : Type} (f : α → Except String β) : List α → Except String (List β)
  | [] => .ok []
  | x :: xs =>
    match f x with
    | .error e => .error e
    | .ok y =>
      match exMap f xs with
      | .error e => .error e
      | .ok ys => .ok (y :: ys)

/-- Python `enumerate` starting at index `i`. -/
def enumFromN {α : Type} (i : Nat) : List α → List (Nat × α)
  | [] => []
  | x :: xs => (i, x) :: enumFromN (i + 1) xs

/-- Python `str()` applied to a JSON value, as in f-string interpolation. -/
def pyStr : JValue → String
  | .str s => s
  | v => pyRepr v

/-- Python iteration over a JSON value (`for x in v`): lists yield their
elements, strings their characters, dicts their keys; other values raise
`TypeError`. -/
def iterJ : JValue → Except String (List JValue)
  | .arr xs => .ok xs
  | .str s => .ok (s.data.map fun c => .str (String.mk [c]))
  | .obj kvs => .ok (kvs.map fun kv => .str kv.fst)
  | _ => .error "TypeError: object is not iterable"

/-- Check that every value in the list is a string, extracting them. -/
def allStrs : List JValue → Option (List String)
  | [] => some []
  | .str s :: rest => (allStrs rest).map fun ss => s :: ss
  | _ => none

/-- Python `sep.join(xs)`: raises `TypeError` when an element is not a
string. -/
def pyJoin (sep : String) (xs : List JValue) : Except String String :=
  match allStrs xs with
  | some ss => .ok (String.intercalate sep ss)
  | none => .error "TypeError: sequence item: expected str instance"

/-- Python `len()` on a JSON value. -/
def pyLen : JValue → Except String Nat
  | .str s => .ok s.length
  | .arr xs => .ok xs.length
  | .obj kvs => .ok kvs.length
  | _ => .error "TypeError: object has no length"

/-- Python integer indexing `v[i]` on a JSON value. -/
def pyIndex : JValue → Nat → Except String JValue
  | .arr xs, i =>
    match xs[i]? with
    | some v => .ok v
    | none => .error "IndexError: list index out of range"
  | .str s, i =>
    match s.data[i]? with
    | some c => .ok (.str (String.mk [c]))
    | none => .error "IndexError: string index out of range"
  | .obj _, _ => .error "KeyError: 0"
  | _, _ => .error "TypeError: object is not subscriptable"

/-- The fixed CSL-type to BibTeX-type lookup table of
`csl_json_to_bibtex`. -/
def type_map : List (String × String) := [
  ("article", "article"),
  ("article-journal", "article"),
  ("article-magazine", "article"),
  ("article-newspaper", "article"),
  ("book", "book"),
  ("chapter", "incollection"),
  ("paper-conference", "inproceedings"),
  ("thesis", "phdthesis"),
  ("report", "techreport"),
  ("webpage", "misc"),
  ("dataset", "misc")]

/-- Generic association-list lookup used for string-keyed tables. -/
def strLookup (kvs : List (String × String)) (k : String) : Option String :=
  match kvs with
  | [] => none
  | (key, v) :: rest => if key = k then some v else strLookup rest k

/-- The id expression of the conversion loop at 0-based position `i`:
`item.get` of the id with default `ITEM-` followed by the 1-based
position. -/
def bibtexItemId (i : Nat) (kvs : List (String × JValue)) : JValue :=
  (jLookup kvs "id").getD (.str ("ITEM-" ++ Nat.repr (i + 1)))

/-- Entry type resolution: `type_map.get` applied to the `type` field with
default `book`, falling back to `misc` for unmapped keys; a non-hashable
type value raises `TypeError`. -/
def bibtexItemType (kvs : List (String × JValue)) : Except String String :=
  match (jLookup kvs "type").getD (.str "book") with
  | .str s => .ok ((strLookup type_map s).getD "misc")
  | .arr _ => .error "TypeError: unhashable type: list"
  | .obj _ => .error "TypeError: unhashable type: dict"
  | _ => .ok "misc"

/-- Composition of one author name (the body of the author loop): a
literal field is used verbatim; otherwise the family part joins the
non-dropping particle and the family name with a space, and the suffix and
given fields select the final format. -/
def composeAuthor (a : JValue) : Except String JValue :=
  match a with
  | .obj kvs =>
    match jLookup kvs "literal" with
    | some v => .ok v
    | none =>
      let ndp := jLookup kvs "non-dropping-particle"
      let fam := jLookup kvs "family"
      let name_parts : List JValue :=
        (if optTruthy ndp then [ndp.getD .null] else []) ++
        (if optTruthy fam then [fam.getD .null] else [])
      match (if name_parts.isEmpty then .ok "" else pyJoin " " name_parts :
          Except String String) with
      | .error e => .error e
      | .ok family =>
        let given := (jLookup kvs "given").getD (.str "")
        let sfx := (jLookup kvs "suffix").getD (.str "")
        if jTruthy sfx then
          .ok (.str (family ++ ", " ++ pyStr sfx ++ ", " ++ pyStr given))
        else if jTruthy given then
          .ok (.str (family ++ ", " ++ pyStr given))
        else
          .ok (.str family)
  | _ => .error "AttributeError: object has no attribute get"

/-- Composition of one editor name (the body of the editor loop). -/
def composeEditor (e : JValue) : Except String JValue :=
  match e with
  | .obj kvs =>
    match jLookup kvs "literal" with
    | some v => .ok v
    | none =>
      let family := (jLookup kvs "family").getD (.str "")
      let given := (jLookup kvs "given").getD (.str "")
      if jTruthy given then .ok (.str (pyStr family ++ ", " ++ pyStr given))
      else .ok family
  | _ => .error "AttributeError: object has no attribute get"

/-- The author field: iterate the author value, compose each name, and
emit the field only when the resulting list is non-empty, joined by
`" and "`. -/
def buildAuthorsField (v : JValue) : Except String (Option String) :=
  match iterJ v with
  | .error e => .error e
  | .ok as =>
    match exMap composeAuthor as with
    | .error e => .error e
    | .ok authors =>
      if authors.isEmpty then .ok none
      else
        match pyJoin " and " authors with
        | .error e => .error e
        | .ok joined => .ok (some ("  author = \x7b" ++ joined ++ "\x7d"))

/-- The editor field, analogous to the author field. -/
def buildEditorsField (v : JValue) : Except String (Option String) :=
  match iterJ v with
  | .error e => .error e
  | .ok es =>
    match exMap composeEditor es with
    | .error e => .error e
    | .ok editors =>
      if editors.isEmpty then .ok none
      else
        match pyJoin " and " editors with
        | .error e => .error e
        | .ok joined => .ok (some ("  editor = \x7b" ++ joined ++ "\x7d"))

/-- The year and month fields from the first element of the nested
date-parts array of `issued`. -/
def issuedFields (issued : JValue) : Except String (List String) :=
  match issued with
  | .obj kvs =>
    match jLookup kvs "date-parts" with
    | none => .ok []
    | some dp =>
      if jTruthy dp then
        match pyIndex dp 0 with
        | .error e => .error e
        | .ok date_parts =>
          match pyLen date_parts with
          | .error e => .error e
          | .ok n =>
            if 1 ≤ n then
              match pyIndex date_parts 0 with
              | .error e => .error e
              | .ok y =>
                if 2 ≤ n then
                  match pyIndex date_parts 1 with
                  | .error e => .error e
                  | .ok m =>
                    .ok ["  year = \x7b" ++ pyStr y ++ "\x7d",
                         "  month = \x7b" ++ pyStr m ++ "\x7d"]
                else .ok ["  year = \x7b" ++ pyStr y ++ "\x7d"]
            else .ok []
      else .ok []
  | .str s =>
    if containsSub s "date-parts" then .error "TypeError: string indices must be integers"
    else .ok []
  | .arr xs =>
    if xs.any fun v => match v with | .str s => s = "date-parts" | _ => false then
      .error "TypeError: list indices must be integers"
    else .ok []
  | _ => .error "TypeError: argument of type is not iterable"

/-- One direct carry-through field, emitted only when the key is
present. -/
def simpleField (kvs : List (String × JValue)) (key fieldName : String) : List String :=
  match jLookup kvs key with
  | some v => ["  " ++ fieldName ++ " = \x7b" ++ pyStr v ++ "\x7d"]
  | none => []

/-- The container-title field: `journal` for entry type `article`,
`booktitle` otherwise. -/
def containerField (kvs : List (String × JValue)) (item_type : String) : List String :=
  match jLookup kvs "container-title" with
  | some v =>
    if item_type = "article" then ["  journal = \x7b" ++ pyStr v ++ "\x7d"]
    else ["  booktitle = \x7b" ++ pyStr v ++ "\x7d"]
  | none => []

/-- The optional author or editor field of an item, as an
exception-carrying list of zero or one field strings. -/
def nameFields (builder : JValue → Except String (Option String))
    (v : Option JValue) : Except String (List String) :=
  match v with
  | some nv =>
    match builder nv with
    | .error e => .error e
    | .ok f => .ok f.toList
  | none => .ok []

/-- The loop body of `csl_json_to_bibtex` for the item at 0-based position
`i`: resolve id, type and title, build the field list in source order, and
assemble one BibTeX entry block. -/
def bibtexEntry (i : Nat) (item : JValue) : Except String String :=
  match item with
  | .obj kvs =>
    let item_id := bibtexItemId i kvs
    match bibtexItemType kvs with
    | .error e => .error e
    | .ok item_type =>
      let title := (jLookup kvs "title").getD (.str ("Item " ++ pyStr item_id))
      let titleField := ["  title = \x7b" ++ pyStr title ++ "\x7d"]
      match nameFields buildAuthorsField (jLookup kvs "author") with
      | .error e => .error e
      | .ok authorFields =>
        match nameFields buildEditorsField (jLookup kvs "editor") with
        | .error e => .error e
        | .ok editorFields =>
          match (match jLookup kvs "issued" with
                 | some iv => issuedFields iv
                 | none => .ok []) with
          | .error e => .error e
          | .ok dateFields =>
            let fields := titleField ++ authorFields ++ editorFields ++ dateFields ++
              containerField kvs item_type ++
              simpleField kvs "volume" "volume" ++
              simpleField kvs "issue" "number" ++
              simpleField kvs "page" "pages" ++
              simpleField kvs "publisher" "publisher" ++
              simpleField kvs "publisher-place" "address" ++
              simpleField kvs "URL" "url" ++
              simpleField kvs "DOI" "doi"
            .ok ("@" ++ item_type ++ "\x7b" ++ pyStr item_id ++ ",\n" ++
              String.intercalate ",\n" fields ++ "\n\x7d")
  | _ => .error "AttributeError: object has no attribute get"

/-- The entry blocks of the conversion loop, one per item, in order. -/
def bibtexEntries (items : List JValue) : Except String (List String) :=
  exMap (fun p => bibtexEntry p.1 p.2) (enumFromN 0 items)

/-- Translation of `csl_json_to_bibtex`: iterate the input value with
Python iteration semantics, convert each item, and join the entry blocks
with blank lines. -/
def csl_json_to_bibtex (v : JValue) : Except String String :=
  match iterJ v with
  | .error e => .error e
  | .ok items =>
    match bibtexEntries items with
    | .error e => .error e
    | .ok entries => .ok (String.intercalate "\n\n" entries)

/-- The ids assigned by the conversion loop to a list of record dicts, in
order. -/
def bibtexIds (items : List (List (String × JValue))) : List JValue :=
  (enumFromN 0 items).map fun p => bibtexItemId p.1 p.2

/-- The id expression of the fallback branch of `generate_typst_test` at
0-based position `i` (syntactically the same `item.get` expression as in
the conversion loop). -/
def typstItemKey (i : Nat) (kvs : List (String × JValue)) : JValue :=
  (jLookup kvs "id").getD (.str ("ITEM-" ++ Nat.repr (i + 1)))

/-- The ids collected from one citation cluster: dict entries carrying an
id contribute it, anything else is passed over. -/
def clusterKeys (cluster : JValue) : Except String (List JValue) :=
  match iterJ cluster with
  | .error e => .error e
  | .ok cites =>
    .ok (cites.filterMap fun cite =>
      match cite with
      | .obj kvs => jLookup kvs "id"
      | _ => none)

/-- The ordered citation keys of `generate_typst_test`: when the
citation-items value is truthy, flatten its clusters keeping the id of
every dict entry that carries one; otherwise take every input item's id in
input order. -/
def typstKeys (fixture : TestFixture) : Except String (List JValue) :=
  if optTruthy fixture.citation_items then
    match iterJ (fixture.citation_items.getD .null) with
    | .error e => .error e
    | .ok clusters =>
      match exMap clusterKeys clusters with
      | .error e => .error e
      | .ok keyLists => .ok keyLists.flatten
  else
    match iterJ fixture.input_data with
    | .error e => .error e
    | .ok items =>
      exMap (fun p =>
        match p.2 with
        | .obj kvs => .ok (typstItemKey p.1 kvs)
        | _ => .error "AttributeError: object has no attribute get")
        (enumFromN 0 items)

/-- The citation line: space-joined `@key` references. -/
def citationsLine (keys : List JValue) : String :=
  String.intercalate " " (keys.map fun k => "@" ++ pyStr k)

/-- The generated Typst program up to the point where the bibliography
directive is conditionally appended. -/
def typstHeader (fixture : TestFixture) (bib_path csl_path : String)
    (keys : List JValue) : String :=
  "// Auto-generated test for: " ++ fixture.name ++ "\n" ++
  "#import \"/lib.typ\": init-csl, csl-bibliography\n\n" ++
  "#set page(width: auto, height: auto, margin: 1em)\n\n" ++
  "#show: init-csl.with(\n  read(\"/" ++ bib_path ++ "\"),\n  read(\"/" ++
    csl_path ++ "\"),\n)\n\n" ++
  citationsLine keys ++ "\n\n"

/-- Translation of `generate_typst_test`: compute the ordered keys and
emit the program text, appending the `#csl-bibliography()` directive
exactly when the style text contains `<bibliography`. -/
def generate_typst_test (fixture : TestFixture) (bib_path csl_path : String) :
    Except String String :=
  match typstKeys fixture with
  | .error e => .error e
  | .ok keys =>
    .ok (typstHeader fixture bib_path csl_path keys ++
      (if containsSub fixture.csl "<bibliography" then "#csl-bibliography()" else "") ++
      "\n")

/-- Python slicing `s[:n]`. -/
def pySlice (s : String) (n : Nat) : String := String.mk (s.data.take n)

/-- Python `str.lower()` (ASCII range). -/
def pyLower (s : String) : String := String.mk (s.data.map Char.toLower)

/-- Translation of the result dictionary built by `run_test`. -/
structure Verdict where
  name : String
  mode : String
  status : String
  expected : String
  actual : Option String
  error : Option String
  skipped_reason : Option String

/-- The outcome of the `typst compile` subprocess invocation, or an
exception raised between generating the program and returning. -/
inductive RunOutcome where
  | completed (returncode : Int) (stderr : String)
  | timedOut
  | raised (msg : String)

/-- The external environment of one test run: the two artifact paths
relative to the project root and the effect outcomes of the try block;
`writeOutcome` is `some message` when writing the `.bib` or `.csl` file
raises. -/
structure RunEnv where
  bib_path : String
  csl_path : String
  writeOutcome : Option String
  runOutcome : RunOutcome

/-- The verdict dictionary as initialized at the top of `run_test`. -/
def initialVerdict (fixture : TestFixture) : Verdict :=
  { name := fixture.name
    mode := fixture.mode
    status := "unknown"
    expected := fixture.result
    actual := none
    error := none
    skipped_reason := none }

/-- Skip predicate 1 of `run_test`: `if fixture.abbreviations:`. -/
def skipAbbreviations (f : TestFixture) : Bool := optTruthy f.abbreviations

/-- Skip predicate 2 of `run_test`: nosort mode. -/
def skipNosort (f : TestFixture) : Bool := f.mode == "bibliography-nosort"

/-- Skip predicate 3 of `run_test`: CSL-M dialect markers in the style. -/
def skipCslM (f : TestFixture) : Bool :=
  containsSub f.csl "xmlns:cs" || containsSub (pyLower f.csl) "csl-m"

/-- Skip predicate 4 of `run_test`: citation mode without a bibliography
construct in the style. -/
def skipCitationOnly (f : TestFixture) : Bool :=
  f.mode == "citation" && !containsSub f.csl "<bibliography"

/-- The try block of `run_test`: convert the input, write the artifacts,
generate the program, run typst, and classify the outcome; any raised
exception is caught and becomes status `error` carrying the message. -/
def execPhase (fixture : TestFixture) (env : RunEnv) : Verdict :=
  let base := initialVerdict fixture
  match csl_json_to_bibtex fixture.input_data with
  | .error e => { base with status := "error", error := some e }
  | .ok _ =>
    match env.writeOutcome with
    | some msg => { base with status := "error", error := some msg }
    | none =>
      match generate_typst_test fixture env.bib_path env.csl_path with
      | .error e => { base with status := "error", error := some e }
      | .ok _ =>
        match env.runOutcome with
        | .raised msg => { base with status := "error", error := some msg }
        | .timedOut =>
          { base with status := "timeout", error := some "Compilation timed out" }
        | .completed rc stderr =>
          if rc != 0 then
            { base with status := "error", error := some (pySlice stderr 500) }
          else
            { base with status := "compiled"
                        actual := some "(PDF generated - manual comparison needed)" }

/-- Translation of `run_test`: the prioritized skip checks, in source
order with early returns, followed by the try block. -/
def run_test (fixture : TestFixture) (env : RunEnv) : Verdict :=
  let base := initialVerdict fixture
  if skipAbbreviations fixture then
    { base with status := "skipped"
                skipped_reason := some "Uses abbreviations (not supported)" }
  else if skipNosort fixture then
    { base with status := "skipped"
                skipped_reason := some "Uses nosort mode (not supported)" }
  else if skipCslM fixture then
    { base with status := "skipped"
                skipped_reason := some "Uses CSL-M extensions" }
  else if skipCitationOnly fixture then
    { base with status := "skipped"
                skipped_reason := some "Citation-only test (no bibliography in CSL)" }
  else execPhase fixture env

/-- The fixture-collection loop of `main`: parse each file and keep the
parsed fixtures; an exception raised by `parse_fixture` propagates. -/
def parseCorpus (J : JsonLib) : List (String × String) → Except String (List TestFixture)
  | [] => .ok []
  | (stem, content) :: rest =>
    match parse_fixture J stem content with
    | .error e => .error e
    | .ok f =>
      match parseCorpus J rest with
      | .error e => .error e
      | .ok fs =>
        match f with
        | some fixture => .ok (fixture :: fs)
        | none => .ok fs

/-- Translation of `main`, abstracted over the corpus contents and the
per-fixture run environments: exit code 1 when the fixtures directory does
not exist, otherwise parse the corpus, run every fixture and exit 0; an
exception raised while parsing propagates and the process dies with a
traceback instead of reaching either exit path. -/
def main_run (J : JsonLib) (fixturesDirExists : Bool)
    (files : List (String × String)) (env : String → RunEnv) :
    Except String (Nat × List Verdict) :=
  if !fixturesDirExists then .ok (1, [])
  else
    match parseCorpus J files with
    | .error e => .error e
    | .ok fixtures => .ok (0, fixtures.map fun f => run_test f (env f.name))

/-- Modelled from the spec: the minimal single-field bibliography that the
Policy A Style Preprocessor synthesizes (a single-field layout referencing
the title).  The alternate adapter path carrying Policy A is not under
`src/`; only Policy B (`run_test`) is. -/
def minimalBibliographyShim : String :=
  "<bibliography><layout><text variable=\"title\"/></layout></bibliography>"

/-- Modelled from the spec: the Policy A Style Preprocessor.  When the
mode is citation and the style has no references-list construct, splice
the minimal bibliography immediately before the closing style tag;
otherwise the style is unchanged. -/
def policyA_preprocess (mode csl : String) : String :=
  if mode == "citation" && !containsSub csl "<bibliography" then
    match splitFirst "</style>".data csl.data with
    | some (pre, post) =>
      String.mk pre ++ minimalBibliographyShim ++ "</style>" ++ String.mk post
    | none => csl
  else csl

/-- Modelled from the spec: the two named, switchable compatibility
policies. -/
inductive AdapterPolicy where
  | policyA
  | policyB

/-- Modelled from the spec: the style text each policy hands to the
engine; Policy B never mutates the style. -/
def preprocessStyle : AdapterPolicy → TestFixture → String
  | .policyA, f => policyA_preprocess f.mode f.csl
  | .policyB, f => f.csl

/-- Modelled from the spec: the citation-only skip decision of each
policy; Policy A applies the shim and proceeds, Policy B skips. -/
def citationOnlySkipReason : AdapterPolicy → TestFixture → Option String
  | .policyA, _ => none
  | .policyB, f =>
    if skipCitationOnly f then some "Citation-only test (no bibliography in CSL)"
    else none

/-- Whitespace accepted between JSON tokens. -/
def jsonWs (c : Char) : Bool := c = ' ' || c = '\t' || c = '\n' || c = '\r'

/-- Skip leading JSON whitespace. -/
def skipJsonWs (cs : List Char) : List Char := cs.dropWhile jsonWs

/-- Accumulate decimal digits into a natural number. -/
def digitsToNat (acc : Nat) : List Char → Nat
  | [] => acc
  | c :: cs => digitsToNat (acc * 10 + (c.toNat - 48)) cs

/-- Lex a natural-number token. -/
def parseNatTok (cs : List Char) : Option (Nat × List Char) :=
  let ds := cs.takeWhile Char.isDigit
  if ds.isEmpty then none
  else some (digitsToNat 0 ds, cs.drop ds.length)

/-- Lex an integer token. -/
def parseNumTok (cs : List Char) : Option (Int × List Char) :=
  match cs with
  | '-' :: rest => (parseNatTok rest).map fun p => (-(p.1 : Int), p.2)
  | _ => (parseNatTok cs).map fun p => ((p.1 : Int), p.2)

/-- Lex a double-quoted string token without escape sequences. -/
def parseStrTok : List Char → Option (String × List Char)
  | '"' :: rest =>
    let body := rest.takeWhile fun c => c ≠ '"' && c ≠ '\\'
    (match rest.drop body.length with
     | '"' :: rest2 => some (String.mk body, rest2)
     | _ => none)
  | _ => none

mutual

/-- Fuel-bounded recursive-descent parser for one JSON value. -/
def parseVal : Nat → List Char → Option (JValue × List Char)
  | 0, _ => none
  | fuel + 1, cs =>
    match skipJsonWs cs with
    | 'n' :: 'u' :: 'l' :: 'l' :: rest => some (.null, rest)
    | 't' :: 'r' :: 'u' :: 'e' :: rest => some (.bool true, rest)
    | 'f' :: 'a' :: 'l' :: 's' :: 'e' :: rest => some (.bool false, rest)
    | '"' :: rest => (parseStrTok ('"' :: rest)).map fun p => (.str p.1, p.2)
    | '[' :: rest =>
      (match skipJsonWs rest with
       | ']' :: rest2 => some (.arr [], rest2)
       | _ => parseArrItems fuel rest)
    | '\x7b' :: rest =>
      (match skipJsonWs rest with
       | '\x7d' :: rest2 => some (.obj [], rest2)
       | _ => parseObjItems fuel rest)
    | rest => (parseNumTok rest).map fun p => (.num p.1, p.2)

/-- Parse the remaining comma-separated elements of a non-empty array. -/
def parseArrItems : Nat → List Char → Option (JValue × List Char)
  | 0, _ => none
  | fuel + 1, cs => do
    let (v, rest) ← parseVal fuel cs
    match skipJsonWs rest with
    | ',' :: rest2 => do
      let (tailv, rest3) ← parseArrItems fuel rest2
      match tailv with
      | .arr vs => some (.arr (v :: vs), rest3)
      | _ => none
    | ']' :: rest2 => some (.arr [v], rest2)
    | _ => none

/-- Parse the remaining comma-separated entries of a non-empty object. -/
def parseObjItems : Nat → List Char → Option (JValue × List Char)
  | 0, _ => none
  | fuel + 1, cs => do
    let (k, rest) ← parseStrTok (skipJsonWs cs)
    match skipJsonWs rest with
    | ':' :: rest2 => do
      let (v, rest3) ← parseVal fuel rest2
      match skipJsonWs rest3 with
      | ',' :: rest4 => do
        let (tailv, rest5) ← parseObjItems fuel rest4
        (match tailv with
         | .obj kvs => some (.obj ((k, v) :: kvs), rest5)
         | _ => none)
      | '\x7d' :: rest4 => some (.obj [(k, v)], rest4)
      | _ => none
    | _ => none

end

/-- A small concrete JSON decoder (arrays, objects, strings without
escapes, integers, booleans, null), agreeing with Python `json.loads` on
the concrete documents used in the closed theorems below. -/
def toyLoads (s : String) : Option JValue :=
  match parseVal (s.length + 1) s.data with
  | some (v, rest) => if (skipJsonWs rest).isEmpty then some v else none
  | none => none

/-- The JSON library instance used for concrete inputs. -/
def toyJson : JsonLib := ⟨toyLoads⟩

/-- Decimal digit list of a natural number, most significant digit first:
the reference form of the string produced by `Nat.repr`. -/
def decRep (n : Nat) : List Char :=
  if n < 10 then [Nat.digitChar n]
  else decRep (n / 10) ++ [Nat.digitChar (n % 10)]
decreasing_by exact Nat.div_lt_self (by omega) (by omega)

/-- The timeout passed to `subprocess.run` (seconds). -/
def typstTimeoutSeconds : Nat := 30

/-- The skipped verdict with the given reason. -/
def skipVerdict (f : TestFixture) (reason : String) : Verdict :=
  { initialVerdict f with status := "skipped", skipped_reason := some reason }

/-- The error verdict with the given message. -/
def errVerdict (f : TestFixture) (msg : String) : Verdict :=
  { initialVerdict f with status := "error", error := some msg }

/-- The timeout verdict with its fixed message. -/
def timeoutVerdict (f : TestFixture) : Verdict :=
  { initialVerdict f with status := "timeout", error := some "Compilation timed out" }

/-- The compiled verdict with its opaque artifact marker. -/
def compiledVerdict (f : TestFixture) : Verdict :=
  { initialVerdict f with status := "compiled"
                          actual := some "(PDF generated - manual comparison needed)" }

/-- Normalization of an optional string field to Python-truthy presence:
an absent field and an empty string both count as not present. -/
def presentStr (o : Option String) : Option String :=
  match o with
  | some s => if s.isEmpty then none else some s
  | none => none

/-- Specification-side name composition, following the claim text: a
literal name is used verbatim; otherwise the family part joins the
particle and the family name with a space; with a suffix the name is
`family, suffix, given`, with only a given name `family, given`, and
otherwise the family part alone. -/
def specComposeName (literal particle family given sfx : Option String) : String :=
  match literal with
  | some s => s
  | none =>
    let fam :=
      match particle, family with
      | some p, some f => p ++ " " ++ f
      | some p, none => p
      | none, some f => f
      | none, none => ""
    match sfx with
    | some s => fam ++ ", " ++ s ++ ", " ++ given.getD ""
    | none =>
      match given with
      | some g => fam ++ ", " ++ g
      | none => fam

/-- Specification-side editor name composition, following the amended
claim text: editors use only the literal, family and given fields — a
literal name verbatim, otherwise `family, given` when a given name is
present and the family alone otherwise; the non-dropping particle and
the suffix are ignored for editors. -/
def specComposeEditorName (literal family given : Option String) : String :=
  match literal with
  | some s => s
  | none =>
    match given with
    | some g => family.getD "" ++ ", " ++ g
    | none => family.getD ""

/-! ### Concrete inputs used by the closed theorems -/

/-- A run environment whose subprocess succeeds immediately. -/
def env0 : RunEnv := ⟨"t.bib", "t.csl", none, .completed 0 ""⟩

/-- A plain bibliography-mode fixture with one identified record. -/
def fx0 : TestFixture where
  name := "t"
  mode := "bibliography"
  result := "A."
  csl := "<style><bibliography/></style>"
  input_data := .arr [.obj [("id", .str "X"), ("title", .str "T")]]

/-- A fixture file whose INPUT section does not decode. -/
def c2BadInputText : String :=
  ">>===== MODE =====>>\nbibliography\n<<===== MODE =====<<\n" ++
  ">>===== RESULT =====>>\nA.\n<<===== RESULT =====<<\n" ++
  ">>===== CSL =====>>\n<style><bibliography/></style>\n<<===== CSL =====<<\n" ++
  ">>===== INPUT =====>>\n@@@\n<<===== INPUT =====<<\n"

/-- C1 counterexample input: a fixture file carrying an ABBREVIATIONS
section holding the empty mapping, in nosort mode. -/
def c1Text : String :=
  ">>===== MODE =====>>\nbibliography-nosort\n<<===== MODE =====<<\n" ++
  ">>===== RESULT =====>>\nA.\n<<===== RESULT =====<<\n" ++
  ">>===== CSL =====>>\n<style><bibliography/></style>\n<<===== CSL =====<<\n" ++
  ">>===== INPUT =====>>\n[\x7b\"id\": \"X\"\x7d]\n<<===== INPUT =====<<\n" ++
  ">>===== ABBREVIATIONS =====>>\n\x7b\x7d\n<<===== ABBREVIATIONS =====<<\n"

/-- The fixture parsed from `c1Text`. -/
def c1Fixture : TestFixture where
  name := "c1"
  mode := "bibliography-nosort"
  result := "A."
  csl := "<style><bibliography/></style>"
  input_data := .arr [.obj [("id", .str "X")]]
  abbreviations := some (.obj [])

/-- A nosort fixture with a truthy (non-empty) abbreviations mapping. -/
def c1wAbbrFixture : TestFixture :=
  { c1Fixture with abbreviations := some (.obj [("a", .str "b")]) }

/-- The BibTeX text produced for the record of `fx0`. -/
def fx0bib : String := "@book\x7bX,\n  title = \x7bT\x7d\n\x7d"

/-- The Typst program generated for `fx0` with the `env0` paths. -/
def fx0gen : String :=
  "// Auto-generated test for: t\n#import \"/lib.typ\": init-csl, csl-bibliography\n\n" ++
  "#set page(width: auto, height: auto, margin: 1em)\n\n" ++
  "#show: init-csl.with(\n  read(\"/t.bib\"),\n  read(\"/t.csl\"),\n)\n\n@X\n\n" ++
  "#csl-bibliography()\n"

/-- A run environment whose subprocess exceeds the time bound. -/
def envTimedOut : RunEnv := { env0 with runOutcome := .timedOut }

/-- A run environment whose subprocess fails with diagnostics. -/
def envFailed : RunEnv := { env0 with runOutcome := .completed 1 "boom" }

/-- A run environment that raises while writing or invoking. -/
def envRaised : RunEnv := { env0 with runOutcome := .raised "oops" }

/-- C6 witness items: one explicitly identified record, then one without
an id. -/
def wItems : List (List (String × JValue)) := [[("id", JValue.num 7)], []]

/-- A citation-mode fixture whose style has no bibliography construct. -/
def fxC5 : TestFixture :=
  { fx0 with mode := "citation", csl := "<style><citation/></style>" }

/-- A fixture carrying two explicit citation clusters. -/
def fxCI : TestFixture :=
  { fx0 with citation_items := some (.arr
      [.arr [.obj [("id", JValue.str "A")], .obj [("id", JValue.str "B")]],
       .arr [.obj [("id", JValue.str "C")]]]) }

/-- A fixture file whose optional CITATIONS section does not decode. -/
def c4Text : String :=
  ">>===== MODE =====>>\nbibliography\n<<===== MODE =====<<\n" ++
  ">>===== RESULT =====>>\nA.\n<<===== RESULT =====<<\n" ++
  ">>===== CSL =====>>\n<style><bibliography/></style>\n<<===== CSL =====<<\n" ++
  ">>===== INPUT =====>>\n[\x7b\"id\": \"X\"\x7d]\n<<===== INPUT =====<<\n" ++
  ">>===== CITATIONS =====>>\nnot-json\n<<===== CITATIONS =====<<\n"

/-! ### Lemmas about the iteration combinators -/

theorem exMap_ok_of_forall {α β : Type} (f : α → Except String β) (g : α → β) :
    ∀ xs : List α, (∀ x ∈ xs, f x = .ok (g x)) → exMap f xs = .ok (xs.map g)
  | [], _ => rfl
  | x :: xs, h => by
    have hx : f x = .ok (g x) := h x (List.mem_cons_self x xs)
    have hxs := exMap_ok_of_forall f g xs fun y hy => h y (List.mem_cons_of_mem x hy)
    simp [exMap, hx, hxs]

theorem exMap_map {α β γ : Type} (f : β → Except String γ) (m : α → β) :
    ∀ xs : List α, exMap f (xs.map m) = exMap (fun x => f (m x)) xs
  | [] => rfl
  | x :: xs => by
    simp only [List.map_cons, exMap, exMap_map f m xs]

theorem enumFromN_map {α β : Type} (h : α → β) :
    ∀ (xs : List α) (i : Nat),
      enumFromN i (xs.map h) = (enumFromN i xs).map fun p => (p.1, h p.2)
  | [], _ => rfl
  | x :: xs, i => by
    simp [enumFromN, enumFromN_map h xs (i + 1)]

theorem enumFromN_getElem? {α : Type} :
    ∀ (xs : List α) (i k : Nat),
      (enumFromN i xs)[k]? = xs[k]?.map fun x => (i + k, x)
  | [], i, k => by simp [enumFromN]
  | x :: xs, i, 0 => by simp [enumFromN]
  | x :: xs, i, k + 1 => by
    have := enumFromN_getElem? xs (i + 1) k
    simp [enumFromN, this]
    cases xs[k]? with
    | none => simp
    | some v =>
      simp
      omega

theorem enumFromN_length {α : Type} :
    ∀ (xs : List α) (i : Nat), (enumFromN i xs).length = xs.length
  | [], _ => rfl
  | x :: xs, i => by simp [enumFromN, enumFromN_length xs (i + 1)]

theorem allStrs_map_str : ∀ ss : List String, allStrs (ss.map JValue.str) = some ss
  | [] => rfl
  | s :: ss => by simp [allStrs, allStrs_map_str ss]

theorem pyJoin_map_str (sep : String) (ss : List String) :
    pyJoin sep (ss.map JValue.str) = .ok (String.intercalate sep ss) := by
  simp [pyJoin, allStrs_map_str]

/-! ### The decimal rendering used for backfilled ids is injective -/

theorem decRep_lt {n : Nat} (h : n < 10) : decRep n = [Nat.digitChar n] := by
  rw [decRep]
  simp [h]

theorem decRep_ge {n : Nat} (h : ¬n < 10) :
    decRep n = decRep (n / 10) ++ [Nat.digitChar (n % 10)] := by
  rw [decRep]
  simp [h]

theorem decRep_ne_nil (n : Nat) : decRep n ≠ [] := by
  by_cases h : n < 10
  · simp [decRep_lt h]
  · simp [decRep_ge h]

theorem digitChar_inj_fin :
    ∀ a b : Fin 10, Nat.digitChar a.val = Nat.digitChar b.val → a = b := by decide

theorem decRep_inj (m : Nat) : ∀ n : Nat, decRep m = decRep n → m = n := by
  induction m using Nat.strong_induction_on with
  | _ m IH =>
    intro n h
    by_cases hm : m < 10 <;> by_cases hn : n < 10
    · rw [decRep_lt hm, decRep_lt hn] at h
      have hc : Nat.digitChar m = Nat.digitChar n := by simpa using h
      have := digitChar_inj_fin ⟨m, hm⟩ ⟨n, hn⟩ hc
      simpa using this
    · rw [decRep_lt hm, decRep_ge hn] at h
      have : (1 : Nat) = (decRep (n / 10)).length + 1 := by
        simpa using congrArg List.length h
      have : (decRep (n / 10)).length = 0 := by omega
      exact absurd (List.length_eq_zero.mp this) (decRep_ne_nil _)
    · rw [decRep_ge hm, decRep_lt hn] at h
      have : (decRep (m / 10)).length + 1 = (1 : Nat) := by
        simpa using congrArg List.length h
      have : (decRep (m / 10)).length = 0 := by omega
      exact absurd (List.length_eq_zero.mp this) (decRep_ne_nil _)
    · rw [decRep_ge hm, decRep_ge hn] at h
      have hp := List.append_inj' h (by simp)
      have hdiv : m / 10 = n / 10 :=
        IH (m / 10) (Nat.div_lt_self (by omega) (by omega)) (n / 10) hp.1
      have hc : Nat.digitChar (m % 10) = Nat.digitChar (n % 10) := by
        simpa using hp.2
      have hmod := digitChar_inj_fin ⟨m % 10, Nat.mod_lt _ (by omega)⟩
        ⟨n % 10, Nat.mod_lt _ (by omega)⟩ hc
      have hmod : m % 10 = n % 10 := by simpa using hmod
      omega

theorem toDigitsCore_eq_decRep :
    ∀ (fuel n : Nat) (ds : List Char), 0 < fuel → n < 10 ^ fuel →
      Nat.toDigitsCore 10 fuel n ds = decRep n ++ ds := by
  intro fuel
  induction fuel with
  | zero => omega
  | succ fuel ih =>
    intro n ds _ hlt
    rw [Nat.toDigitsCore]
    by_cases hdiv : n / 10 = 0
    · have hn : n < 10 := by omega
      have : n % 10 = n := Nat.mod_eq_of_lt hn
      simp [hdiv, this, decRep_lt hn]
    · have hge : ¬n < 10 := by
        intro hc
        exact hdiv (Nat.div_eq_of_lt hc)
      have hfuel : 0 < fuel := by
        by_contra hf
        have : fuel = 0 := by omega
        subst this
        simp [pow_succ, pow_zero] at hlt
        omega
      have hlt2 : n / 10 < 10 ^ fuel := by
        have h1 : n < 10 ^ fuel * 10 := by
          have : (10 : Nat) ^ (fuel + 1) = 10 ^ fuel * 10 := pow_succ 10 fuel
          omega
        exact Nat.div_lt_of_lt_mul (by omega)
      have := ih (n / 10) (Nat.digitChar (n % 10) :: ds) hfuel hlt2
      simp [hdiv, this, decRep_ge hge]

theorem toDigits_eq_decRep (n : Nat) : Nat.toDigits 10 n = decRep n := by
  have hlt : n < 10 ^ (n + 1) :=
    lt_of_lt_of_le (Nat.lt_pow_self (by omega) n)
      (Nat.pow_le_pow_right (by omega) (Nat.le_succ n))
  have := toDigitsCore_eq_decRep (n + 1) n [] (by omega) hlt
  simpa [Nat.toDigits] using this

theorem natRepr_inj {m n : Nat} (h : Nat.repr m = Nat.repr n) : m = n := by
  have h2 : (Nat.toDigits 10 m).asString = (Nat.toDigits 10 n).asString := h
  rw [toDigits_eq_decRep, toDigits_eq_decRep] at h2
  have h3 : decRep m = decRep n := congrArg String.data h2
  exact decRep_inj m n h3

theorem itemTag_inj {j k : Nat}
    (h : "ITEM-" ++ Nat.repr j = "ITEM-" ++ Nat.repr k) : j = k := by
  apply natRepr_inj
  have hd := congrArg String.data h
  simp only [String.data_append] at hd
  have hd2 := List.append_cancel_left hd
  have := congrArg String.mk hd2
  simpa using this

/-! ### Substring facts -/

theorem splitFirst_isSome_append (pat : List Char) (hpat : pat ≠ []) :
    ∀ xs ys : List Char, (splitFirst pat (xs ++ (pat ++ ys))).isSome = true := by
  intro xs
  induction xs with
  | nil =>
    intro ys
    cases pat with
    | nil => exact absurd rfl hpat
    | cons c pr =>
      have hpre : (c :: pr).isPrefixOf ((c :: pr) ++ ys) = true :=
        List.isPrefixOf_iff_prefix.mpr (List.prefix_append _ _)
      simp [splitFirst, hpre]
  | cons c xs ih =>
    intro ys
    by_cases hpre : pat <+: (c :: (xs ++ (pat ++ ys)))
    · simp [splitFirst, hpre]
    · have := ih ys
      cases hsp : splitFirst pat (xs ++ (pat ++ ys)) with
      | none => rw [hsp] at this; simp at this
      | some p => simp [splitFirst, hpre, hsp]

theorem containsSub_append_of_middle (a pat b : String) (hpat : pat.data ≠ []) :
    containsSub (a ++ (pat ++ b)) pat = true := by
  unfold containsSub
  simp only [String.data_append]
  have := splitFirst_isSome_append pat.data hpat a.data b.data
  simpa using this

/-! ### The shape of the execution phase -/

theorem execPhase_shape (f : TestFixture) (env : RunEnv) :
    (execPhase f env).skipped_reason = none ∧
    ((execPhase f env).status = "error" ∨ (execPhase f env).status = "timeout" ∨
      (execPhase f env).status = "compiled") := by
  unfold execPhase
  cases csl_json_to_bibtex f.input_data with
  | error e => simp [initialVerdict]
  | ok bb =>
    cases env.writeOutcome with
    | some msg => simp [initialVerdict]
    | none =>
      cases generate_typst_test f env.bib_path env.csl_path with
      | error e => simp [initialVerdict]
      | ok gg =>
        cases env.runOutcome with
        | raised msg => simp [initialVerdict]
        | timedOut => simp [initialVerdict]
        | completed rc stderr =>
          by_cases hrc : rc != 0 <;> simp [initialVerdict, hrc]

/-! ### C2 -/

/-- C2: for every fixture text in which at least one of the MODE, RESULT,
CSL, INPUT sections is absent, and for every fixture text whose INPUT
section does not decode, parsing returns no fixture (`ok none`, not a
raised exception), and such a file contributes nothing to the parsed
corpus. -/
theorem C2_parse_drops (J : JsonLib) (stem content : String) :
    ((extract_section content "MODE" = none ∨
      extract_section content "RESULT" = none ∨
      extract_section content "CSL" = none ∨
      extract_section content "INPUT" = none) →
      parse_fixture J stem content = .ok none) ∧
    (∀ s, extract_section content "INPUT" = some s → J.loads s = none →
      parse_fixture J stem content = .ok none) ∧
    (parse_fixture J stem content = .ok none →
      ∀ rest, parseCorpus J ((stem, content) :: rest) = parseCorpus J rest) := by
  refine ⟨?_, ?_, ?_⟩
  · intro h
    rcases h with h | h | h | h <;> simp [parse_fixture, h, truthyStr]
  · intro s hs hload
    simp [parse_fixture, hs, hload]
  · intro h rest
    cases hp : parseCorpus J rest <;> simp [parseCorpus, h, hp]

/-- C2 witness: a text with no sections at all and a text whose INPUT
section holds undecodable data are both dropped, and the first one
contributes nothing to the corpus. -/
theorem C2_parse_drops_witness :
    parse_fixture toyJson "w" "junk" = .ok none ∧
    parseCorpus toyJson [("w", "junk")] = parseCorpus toyJson [] ∧
    parse_fixture toyJson "w2" c2BadInputText = .ok none := by
  have h1 := C2_parse_drops toyJson "w" "junk"
  have h2 := C2_parse_drops toyJson "w2" c2BadInputText
  have hd : parse_fixture toyJson "w" "junk" = .ok none := h1.1 (Or.inl (by rfl))
  exact ⟨hd, h1.2.2 hd [], h2.2.1 "@@@" (by rfl) (by rfl)⟩

/-! ### C1 -/

/-- C1 counterexample: a parsed fixture whose ABBREVIATIONS section is
present (holding the empty mapping) matches skip predicate (1) as the
claim states it, yet `run_test` reports the nosort reason of predicate
(2): the code tests Python truthiness of the decoded mapping, not
presence of the section. -/
theorem C1_counterexample :
    parse_fixture toyJson "c1" c1Text = .ok (some c1Fixture) ∧
    c1Fixture.abbreviations = some (.obj []) ∧
    (run_test c1Fixture env0).skipped_reason =
      some "Uses nosort mode (not supported)" ∧
    (run_test c1Fixture env0).skipped_reason ≠
      some "Uses abbreviations (not supported)" := by
  refine ⟨by rfl, rfl, by rfl, ?_⟩
  have h : (run_test c1Fixture env0).skipped_reason =
      some "Uses nosort mode (not supported)" := by rfl
  rw [h]
  simp

/-- C1 (amended): the skip predicates of `run_test` are evaluated in the
fixed priority order (1) abbreviations mapping present and non-empty,
(2) nosort mode, (3) dialect-extension markers in the style, (4) citation
mode without a references-list construct; the first predicate whose test
succeeds sets status skipped with its named reason, short-circuiting the
rest, and when none succeeds the fixture proceeds to the artifact
generation and execution phase and is never marked skipped. -/
theorem C1_skip_priority_amended (f : TestFixture) (env : RunEnv) :
    (skipAbbreviations f = true →
      run_test f env = skipVerdict f "Uses abbreviations (not supported)") ∧
    (skipAbbreviations f = false → skipNosort f = true →
      run_test f env = skipVerdict f "Uses nosort mode (not supported)") ∧
    (skipAbbreviations f = false → skipNosort f = false → skipCslM f = true →
      run_test f env = skipVerdict f "Uses CSL-M extensions") ∧
    (skipAbbreviations f = false → skipNosort f = false → skipCslM f = false →
      skipCitationOnly f = true →
      run_test f env = skipVerdict f "Citation-only test (no bibliography in CSL)") ∧
    (skipAbbreviations f = false → skipNosort f = false → skipCslM f = false →
      skipCitationOnly f = false →
      run_test f env = execPhase f env ∧
      (run_test f env).skipped_reason = none ∧
      (run_test f env).status ≠ "skipped") := by
  refine ⟨?_, ?_, ?_, ?_, ?_⟩
  · intro h1
    simp [run_test, h1, skipVerdict]
  · intro h1 h2
    simp [run_test, h1, h2, skipVerdict]
  · intro h1 h2 h3
    simp [run_test, h1, h2, h3, skipVerdict]
  · intro h1 h2 h3 h4
    simp [run_test, h1, h2, h3, h4, skipVerdict]
  · intro h1 h2 h3 h4
    have hrun : run_test f env = execPhase f env := by
      simp [run_test, h1, h2, h3, h4]
    have hshape := execPhase_shape f env
    refine ⟨hrun, by rw [hrun]; exact hshape.1, ?_⟩
    rw [hrun]
    rcases hshape.2 with h | h | h <;> rw [h] <;> simp

/-- C1 witness: the amended priority order observed on concrete fixtures:
a truthy abbreviations mapping wins over nosort mode, and a fixture
matching no predicate executes. -/
theorem C1_skip_priority_amended_witness :
    run_test c1wAbbrFixture env0 =
      skipVerdict c1wAbbrFixture "Uses abbreviations (not supported)" ∧
    run_test c1Fixture env0 =
      skipVerdict c1Fixture "Uses nosort mode (not supported)" ∧
    run_test fx0 env0 = execPhase fx0 env0 ∧
    (run_test fx0 env0).status ≠ "skipped" := by
  have hA := (C1_skip_priority_amended c1wAbbrFixture env0).1 (by rfl)
  have hB := (C1_skip_priority_amended c1Fixture env0).2.1 (by rfl) (by rfl)
  have hC := (C1_skip_priority_amended fx0 env0).2.2.2.2 (by rfl) (by rfl)
    (by rfl) (by rfl)
  exact ⟨hA, hB, hC.1, hC.2.2⟩

/-! ### C3 -/

/-- C3: for every fixture passing all four skip predicates, the runner
invokes the engine under the fixed 30-second timeout and classifies the
outcome as claimed: an exception while writing the artifacts is caught as
status error with its message; once the program is generated, a raised
exception maps to status error with the message, exceeding the timeout to
status timeout with the fixed message, a non-zero exit to status error
with the standard-error text truncated to at most 500 characters, and a
zero exit to status compiled with the opaque artifact marker and no
comparison against the expected result. -/
theorem C3_execution_classification (f : TestFixture) (env : RunEnv) (bb : String)
    (h1 : skipAbbreviations f = false) (h2 : skipNosort f = false)
    (h3 : skipCslM f = false) (h4 : skipCitationOnly f = false)
    (hbib : csl_json_to_bibtex f.input_data = .ok bb) :
    typstTimeoutSeconds = 30 ∧
    (∀ msg, env.writeOutcome = some msg → run_test f env = errVerdict f msg) ∧
    (env.writeOutcome = none →
      ∀ gg, generate_typst_test f env.bib_path env.csl_path = .ok gg →
        (∀ msg, env.runOutcome = .raised msg → run_test f env = errVerdict f msg) ∧
        (env.runOutcome = .timedOut → run_test f env = timeoutVerdict f) ∧
        (∀ rc stderr, env.runOutcome = .completed rc stderr → rc ≠ 0 →
          run_test f env = errVerdict f (pySlice stderr 500) ∧
          (pySlice stderr 500).length ≤ 500) ∧
        (∀ stderr, env.runOutcome = .completed 0 stderr →
          run_test f env = compiledVerdict f)) := by
  have hrun : run_test f env = execPhase f env := by
    simp [run_test, h1, h2, h3, h4]
  refine ⟨rfl, ?_, ?_⟩
  · intro msg hw
    rw [hrun]
    simp only [execPhase, hbib, hw, errVerdict]
  · intro hw gg hgen
    refine ⟨?_, ?_, ?_, ?_⟩
    · intro msg hr
      rw [hrun]
      simp only [execPhase, hbib, hw, hgen, hr, errVerdict]
    · intro hr
      rw [hrun]
      simp only [execPhase, hbib, hw, hgen, hr, timeoutVerdict]
    · intro rc stderr hr hrc
      constructor
      · rw [hrun]
        have hb : (rc != 0) = true := bne_iff_ne.mpr hrc
        simp only [execPhase, hbib, hw, hgen, hr, hb, if_true, errVerdict]
      · show (stderr.data.take 500).length ≤ 500
        exact List.length_take_le 500 stderr.data
    · intro stderr hr
      rw [hrun]
      simp only [execPhase, hbib, hw, hgen, hr, compiledVerdict, bne_self_eq_false,
        if_false, Bool.false_eq_true]

/-- C3 witness: the four classifications observed on concrete runs of the
`fx0` fixture. -/
theorem C3_execution_classification_witness :
    run_test fx0 env0 = compiledVerdict fx0 ∧
    run_test fx0 envTimedOut = timeoutVerdict fx0 ∧
    run_test fx0 envFailed = errVerdict fx0 (pySlice "boom" 500) ∧
    run_test fx0 envRaised = errVerdict fx0 "oops" := by
  have h0 := C3_execution_classification fx0 env0 fx0bib rfl rfl (by rfl) (by rfl)
    (by rfl)
  have ht := C3_execution_classification fx0 envTimedOut fx0bib rfl rfl (by rfl)
    (by rfl) (by rfl)
  have hf := C3_execution_classification fx0 envFailed fx0bib rfl rfl (by rfl)
    (by rfl) (by rfl)
  have he := C3_execution_classification fx0 envRaised fx0bib rfl rfl (by rfl)
    (by rfl) (by rfl)
  refine ⟨(h0.2.2 rfl fx0gen (by rfl)).2.2.2 "" rfl,
          (ht.2.2 rfl fx0gen (by rfl)).2.1 rfl,
          ((hf.2.2 rfl fx0gen (by rfl)).2.2.1 1 "boom" rfl (by omega)).1,
          (he.2.2 rfl fx0gen (by rfl)).1 "oops" rfl⟩

/-! ### C4 -/

/-- C4 counterexample: with the corpus directory present, a decode failure
in the optional CITATIONS section of a single fixture file raises an
uncaught exception inside the parsing loop: the run dies with a traceback
instead of containing the failure and exiting 0. -/
theorem C4_counterexample :
    main_run toyJson true [("bad", c4Text)] (fun _ => env0) =
      .error "json.decoder.JSONDecodeError" := by rfl

/-- C4 (amended): the exit code is 1 when the fixture corpus directory
does not exist; when it exists and every fixture file parses without a
raised exception (failures of required sections and of INPUT decoding
only drop the fixture), the run processes every parsed fixture and exits
0 regardless of the individual verdicts, each of which carries one of the
four terminal statuses; but a decode failure in an optional section
raises and aborts the whole run. -/
theorem C4_exit_codes_amended (J : JsonLib) (files : List (String × String))
    (env : String → RunEnv) :
    (main_run J false files env = .ok (1, [])) ∧
    (∀ fs, parseCorpus J files = .ok fs →
      main_run J true files env =
        .ok (0, fs.map fun f => run_test f (env f.name))) ∧
    (∀ f e, (run_test f e).status = "skipped" ∨ (run_test f e).status = "error" ∨
      (run_test f e).status = "timeout" ∨ (run_test f e).status = "compiled") := by
  refine ⟨rfl, ?_, ?_⟩
  · intro fs hfs
    simp [main_run, hfs]
  · intro f e
    by_cases hA : skipAbbreviations f = true
    · left
      simp [run_test, hA]
    · simp only [Bool.not_eq_true] at hA
      by_cases hB : skipNosort f = true
      · left
        simp [run_test, hA, hB]
      · simp only [Bool.not_eq_true] at hB
        by_cases hC : skipCslM f = true
        · left
          simp [run_test, hA, hB, hC]
        · simp only [Bool.not_eq_true] at hC
          by_cases hD : skipCitationOnly f = true
          · left
            simp [run_test, hA, hB, hC, hD]
          · simp only [Bool.not_eq_true] at hD
            have hrun : run_test f e = execPhase f e := by
              simp [run_test, hA, hB, hC, hD]
            rw [hrun]
            rcases (execPhase_shape f e).2 with h | h | h
            · exact Or.inr (Or.inl h)
            · exact Or.inr (Or.inr (Or.inl h))
            · exact Or.inr (Or.inr (Or.inr h))

/-- C4 witness: the two exit paths and the closed verdict taxonomy on
concrete runs. -/
theorem C4_exit_codes_amended_witness :
    main_run toyJson false [("w", "junk")] (fun _ => env0) = .ok (1, []) ∧
    main_run toyJson true [("w", "junk")] (fun _ => env0) = .ok (0, []) ∧
    ((run_test fx0 env0).status = "skipped" ∨ (run_test fx0 env0).status = "error" ∨
      (run_test fx0 env0).status = "timeout" ∨
      (run_test fx0 env0).status = "compiled") := by
  have h := C4_exit_codes_amended toyJson [("w", "junk")] (fun _ => env0)
  refine ⟨h.1, ?_, h.2.2 fx0 env0⟩
  have := h.2.1 [] (by rfl)
  simpa using this

/-! ### C6 -/

theorem bibtexIds_getElem? (items : List (List (String × JValue))) (k : Nat) :
    (bibtexIds items)[k]? = items[k]?.map fun kvs => bibtexItemId k kvs := by
  unfold bibtexIds
  rw [List.getElem?_map, enumFromN_getElem?]
  cases items[k]? <;> simp

theorem bibtexIds_length (items : List (List (String × JValue))) :
    (bibtexIds items).length = items.length := by
  unfold bibtexIds
  rw [List.length_map, enumFromN_length]

/-- C6 counterexample: ids are not always unique within a fixture: when
the first record explicitly carries the id `ITEM-2` and the second record
has no id, the backfilled id of the second collides with the first. -/
theorem C6_counterexample :
    bibtexIds [[("id", JValue.str "ITEM-2")], []] =
      [JValue.str "ITEM-2", JValue.str "ITEM-2"] ∧
    ¬(bibtexIds [[("id", JValue.str "ITEM-2")], []]).Nodup := by
  constructor
  · rfl
  · intro h
    have he : bibtexIds [[("id", JValue.str "ITEM-2")], []] =
        [JValue.str "ITEM-2", JValue.str "ITEM-2"] := rfl
    rw [he] at h
    simp at h

/-- C6 (amended): the conversion loop assigns to each record lacking an
id the synthetic id `ITEM-<k>` with k its 1-based position, keeps every
explicitly present id, and preserves ordering (the id list corresponds
positionally to the input); the resulting ids are unique provided the
explicitly supplied ids are pairwise distinct and no explicit id equals
the `ITEM-<k>` tag of a position lacking an id — without that proviso
uniqueness can fail. -/
theorem C6_ids_amended (items : List (List (String × JValue))) :
    ((bibtexIds items).length = items.length) ∧
    (∀ (k : Nat) (kvs : List (String × JValue)),
      items[k]? = some kvs → jLookup kvs "id" = none →
      (bibtexIds items)[k]? = some (JValue.str ("ITEM-" ++ Nat.repr (k + 1)))) ∧
    (∀ (k : Nat) (kvs : List (String × JValue)) (v : JValue),
      items[k]? = some kvs → jLookup kvs "id" = some v →
      (bibtexIds items)[k]? = some v) ∧
    ((∀ (i j : Nat) (kvsi kvsj : List (String × JValue)) (vi vj : JValue),
        items[i]? = some kvsi → items[j]? = some kvsj →
        jLookup kvsi "id" = some vi → jLookup kvsj "id" = some vj → i ≠ j →
        vi ≠ vj) →
     (∀ (i j : Nat) (kvsi kvsj : List (String × JValue)) (vi : JValue),
        items[i]? = some kvsi → jLookup kvsi "id" = some vi →
        items[j]? = some kvsj → jLookup kvsj "id" = none →
        vi ≠ JValue.str ("ITEM-" ++ Nat.repr (j + 1))) →
     (bibtexIds items).Nodup) := by
  refine ⟨bibtexIds_length items, ?_, ?_, ?_⟩
  · intro k kvs hk hid
    rw [bibtexIds_getElem?, hk]
    simp [bibtexItemId, hid]
  · intro k kvs v hk hid
    rw [bibtexIds_getElem?, hk]
    simp [bibtexItemId, hid]
  · intro h1 h2
    rw [List.nodup_iff_getElem?_ne_getElem?]
    intro i j hij hjlen
    rw [bibtexIds_length] at hjlen
    have hilen : i < items.length := lt_trans hij hjlen
    have hi : items[i]? = some items[i] := List.getElem?_eq_getElem hilen
    have hj : items[j]? = some items[j] := List.getElem?_eq_getElem hjlen
    rw [bibtexIds_getElem?, bibtexIds_getElem?, hi, hj]
    simp only [Option.map_some']
    intro hcontra
    have hcontra : bibtexItemId i items[i] = bibtexItemId j items[j] :=
      Option.some.inj hcontra
    cases hvi : jLookup items[i] "id" with
    | none =>
      cases hvj : jLookup items[j] "id" with
      | none =>
        unfold bibtexItemId at hcontra
        rw [hvi, hvj] at hcontra
        simp only [Option.getD_none, JValue.str.injEq] at hcontra
        have := itemTag_inj hcontra
        omega
      | some vj =>
        have hne := h2 j i items[j] items[i] vj hj hvj hi hvi
        unfold bibtexItemId at hcontra
        rw [hvi, hvj] at hcontra
        simp only [Option.getD_none, Option.getD_some] at hcontra
        exact hne hcontra.symm
    | some vi =>
      cases hvj : jLookup items[j] "id" with
      | none =>
        have hne := h2 i j items[i] items[j] vi hi hvi hj hvj
        unfold bibtexItemId at hcontra
        rw [hvi, hvj] at hcontra
        simp only [Option.getD_none, Option.getD_some] at hcontra
        exact hne hcontra
      | some vj =>
        have hne := h1 i j items[i] items[j] vi vj hi hj hvi hvj (Nat.ne_of_lt hij)
        unfold bibtexItemId at hcontra
        rw [hvi, hvj] at hcontra
        simp only [Option.getD_some] at hcontra
        exact hne hcontra

/-- C6 witness: on one identified record followed by one id-less record,
the backfilled id is `ITEM-2`, the explicit id is kept at position 0,
ordering is positional, and the ids are unique. -/
theorem C6_ids_amended_witness :
    (bibtexIds wItems).length = wItems.length ∧
    (bibtexIds wItems)[1]? = some (.str ("ITEM-" ++ Nat.repr 2)) ∧
    (bibtexIds wItems)[0]? = some (.num 7) ∧
    (bibtexIds wItems).Nodup := by
  have h := C6_ids_amended wItems
  have hexp : ∀ i kvsi vi, wItems[i]? = some kvsi → jLookup kvsi "id" = some vi →
      i = 0 ∧ vi = JValue.num 7 := by
    intro i kvsi vi hi hvi
    match i with
    | 0 =>
      have hk : kvsi = [("id", JValue.num 7)] := by
        have : some [("id", JValue.num 7)] = some kvsi := hi.symm ▸ rfl
        exact (Option.some.inj this).symm
      subst hk
      have hv : some (JValue.num 7) = some vi := by
        have : jLookup [("id", JValue.num 7)] "id" = some (JValue.num 7) := rfl
        rw [this] at hvi
        exact hvi ▸ rfl
      exact ⟨rfl, (Option.some.inj hv).symm⟩
    | 1 =>
      have hk : kvsi = [] := by
        have : some ([] : List (String × JValue)) = some kvsi := hi.symm ▸ rfl
        exact (Option.some.inj this).symm
      subst hk
      simp [jLookup] at hvi
    | n + 2 =>
      simp [wItems] at hi
  refine ⟨h.1, h.2.1 1 [] (by rfl) (by rfl),
    h.2.2.1 0 [("id", JValue.num 7)] (.num 7) (by rfl) (by rfl), ?_⟩
  refine h.2.2.2 ?_ ?_
  · intro i j kvsi kvsj vi vj hi hj hvi hvj hij
    obtain ⟨hi0, _⟩ := hexp i kvsi vi hi hvi
    obtain ⟨hj0, _⟩ := hexp j kvsj vj hj hvj
    exact absurd (hi0.trans hj0.symm) hij
  · intro i j kvsi kvsj vi hi hvi hj hvj
    obtain ⟨_, hvi7⟩ := hexp i kvsi vi hi hvi
    subst hvi7
    intro hcontra
    simp at hcontra

/-! ### C8 -/

/-- C8 counterexample: a record with no type field at all is tagged
`book`, not the generic `misc` tag that unmapped types receive. -/
theorem C8_counterexample :
    bibtexItemType [] = .ok "book" ∧
    bibtexItemType [("type", JValue.str "zzz")] = .ok "misc" ∧
    ("book" : String) ≠ "misc" := by
  refine ⟨rfl, rfl, by decide⟩

/-- C8 (amended): the entry type is resolved through the fixed lookup
table applied to the record's type field with default `book`: a mapped
string type yields its table entry, an unmapped string type yields the
generic `misc` tag, and a record missing the type field altogether is
tagged `book` (the defaulted key, which the table maps to itself), not
the generic tag. -/
theorem C8_type_resolution_amended (kvs : List (String × JValue)) :
    (∀ s, jLookup kvs "type" = some (.str s) →
      ((∀ t, strLookup type_map s = some t → bibtexItemType kvs = .ok t) ∧
       (strLookup type_map s = none → bibtexItemType kvs = .ok "misc"))) ∧
    (jLookup kvs "type" = none → bibtexItemType kvs = .ok "book") := by
  constructor
  · intro s hs
    constructor
    · intro t ht
      simp [bibtexItemType, hs, ht]
    · intro ht
      simp [bibtexItemType, hs, ht]
  · intro hn
    simp [bibtexItemType, hn, type_map, strLookup]

/-- C8 witness: a mapped type, an unmapped type and a missing type on
concrete records. -/
theorem C8_type_resolution_amended_witness :
    bibtexItemType [("type", JValue.str "chapter")] = .ok "incollection" ∧
    bibtexItemType [("type", JValue.str "unknown-kind")] = .ok "misc" ∧
    bibtexItemType [] = .ok "book" := by
  have h1 := C8_type_resolution_amended [("type", JValue.str "chapter")]
  have h2 := C8_type_resolution_amended [("type", JValue.str "unknown-kind")]
  have h3 := C8_type_resolution_amended []
  exact ⟨(h1.1 "chapter" (by rfl)).1 "incollection" (by rfl),
         (h2.1 "unknown-kind" (by rfl)).2 (by rfl),
         h3.2 (by rfl)⟩

/-! ### C9 -/

theorem exMap_ok_of_forall₂ {α β : Type} (f : α → Except String β) :
    ∀ {xs : List α} {ys : List β},
      List.Forall₂ (fun x y => f x = .ok y) xs ys → exMap f xs = .ok ys := by
  intro xs ys h
  induction h with
  | nil => rfl
  | cons hxy _ ih => simp [exMap, hxy, ih]

theorem truthyPart (o : Option String) :
    (if optTruthy (o.map JValue.str) then [(o.map JValue.str).getD JValue.null]
     else []) = (presentStr o).toList.map JValue.str := by
  cases o with
  | none => rfl
  | some s => by_cases hs : s.isEmpty <;> simp [optTruthy, jTruthy, presentStr, hs]

theorem composeFamJoin (po fo : Option String) :
    (if (((po.toList ++ fo.toList).map JValue.str).isEmpty : Bool) then
        (.ok "" : Except String String)
      else pyJoin " " ((po.toList ++ fo.toList).map JValue.str)) =
    .ok (match po, fo with
         | some p, some f => p ++ " " ++ f
         | some p, none => p
         | none, some f => f
         | none, none => "") := by
  cases po <;> cases fo <;> rfl

theorem jTruthy_strOpt (o : Option String) :
    jTruthy ((o.map JValue.str).getD (JValue.str "")) = (presentStr o).isSome := by
  cases o with
  | none => rfl
  | some s => by_cases hs : s.isEmpty <;> simp [jTruthy, presentStr, hs]

theorem pyStr_strOpt (o : Option String) :
    pyStr ((o.map JValue.str).getD (JValue.str "")) = o.getD "" := by
  cases o <;> rfl

theorem presentStr_some {o : Option String} {t : String}
    (h : presentStr o = some t) : o.getD "" = t := by
  cases o with
  | none => simp [presentStr] at h
  | some s =>
    by_cases hs : s.isEmpty
    · simp [presentStr, hs] at h
    · simp [presentStr, hs] at h
      simpa using h

theorem presentStr_getD (o : Option String) :
    (presentStr o).getD "" = o.getD "" := by
  cases o with
  | none => rfl
  | some s =>
    by_cases hs : s.isEmpty
    · have hstr : s = "" := (String.isEmpty_iff s).mp hs
      subst hstr
      simp [presentStr, hs]
    · simp [presentStr, hs]

theorem strOpt_getD (o : Option String) :
    (o.map JValue.str).getD (JValue.str "") = JValue.str (o.getD "") := by
  cases o <;> rfl

/-- C9 counterexample: the claimed composition scheme does not hold for
editor names: the editor loop ignores the suffix and the non-dropping
particle, so the editor King, Martin, Jr. is composed as `King, Martin`
although the claimed scheme (`family, suffix, given`, here spelled by
`specComposeName`) yields `King, Jr., Martin`, and the editor van Gogh,
Vincent loses its particle. -/
theorem C9_counterexample :
    composeEditor (JValue.obj [("family", JValue.str "King"),
      ("given", JValue.str "Martin"), ("suffix", JValue.str "Jr.")]) =
      .ok (JValue.str "King, Martin") ∧
    specComposeName none none (some "King") (some "Martin") (some "Jr.") =
      "King, Jr., Martin" ∧
    ("King, Martin" : String) ≠ "King, Jr., Martin" ∧
    composeEditor (JValue.obj [("non-dropping-particle", JValue.str "van"),
      ("family", JValue.str "Gogh"), ("given", JValue.str "Vincent")]) =
      .ok (JValue.str "Gogh, Vincent") ∧
    specComposeName none (some "van") (some "Gogh") (some "Vincent") none =
      "van Gogh, Vincent" ∧
    ("Gogh, Vincent" : String) ≠ "van Gogh, Vincent" := by
  exact ⟨by rfl, by rfl, by decide, by rfl, by rfl, by decide⟩

/-- C9 (amended): on an author entry whose name fields hold strings where
present, the composed name follows the claimed scheme (literal verbatim;
particle and family joined by a space; `family, suffix, given` with a
suffix; `family, given` with only a given name; bare family otherwise),
reading presence as Python truthiness; an editor entry is composed from
its literal, family and given fields alone (literal verbatim;
`family, given` when a given name is present; bare family otherwise),
ignoring any particle or suffix it may carry; and any non-empty list of
composed names is joined by `" and "` into the author or editor field. -/
theorem C9_name_composition_amended (kvs ekvs : List (String × JValue))
    (literal particle family given sfx elit efam egiv : Option String)
    (hlit : jLookup kvs "literal" = literal.map JValue.str)
    (hndp : jLookup kvs "non-dropping-particle" = particle.map JValue.str)
    (hfam : jLookup kvs "family" = family.map JValue.str)
    (hgiv : jLookup kvs "given" = given.map JValue.str)
    (hsfx : jLookup kvs "suffix" = sfx.map JValue.str)
    (helit : jLookup ekvs "literal" = elit.map JValue.str)
    (hefam : jLookup ekvs "family" = efam.map JValue.str)
    (hegiv : jLookup ekvs "given" = egiv.map JValue.str) :
    composeAuthor (JValue.obj kvs) =
      .ok (JValue.str (specComposeName literal (presentStr particle)
        (presentStr family) (presentStr given) (presentStr sfx))) ∧
    (∀ (as : List JValue) (names : List String), as ≠ [] →
      List.Forall₂ (fun a nm => composeAuthor a = .ok (JValue.str nm)) as names →
      buildAuthorsField (JValue.arr as) =
        .ok (some ("  author = \x7b" ++ String.intercalate " and " names ++
          "\x7d"))) ∧
    composeEditor (JValue.obj ekvs) =
      .ok (JValue.str (specComposeEditorName elit efam (presentStr egiv))) ∧
    (∀ (es : List JValue) (names : List String), es ≠ [] →
      List.Forall₂ (fun e nm => composeEditor e = .ok (JValue.str nm)) es names →
      buildEditorsField (JValue.arr es) =
        .ok (some ("  editor = \x7b" ++ String.intercalate " and " names ++
          "\x7d"))) := by
  refine ⟨?_, ?_, ?_, ?_⟩
  · cases literal with
    | some s => simp [composeAuthor, hlit, specComposeName]
    | none =>
      simp only [Option.map_none'] at hlit
      simp only [composeAuthor, hlit, hndp, hfam, hgiv, hsfx]
      rw [truthyPart particle, truthyPart family, ← List.map_append,
        composeFamJoin (presentStr particle) (presentStr family)]
      rw [jTruthy_strOpt sfx, jTruthy_strOpt given, pyStr_strOpt sfx,
        pyStr_strOpt given]
      cases hps : presentStr sfx with
      | some s2 =>
        simp only [Option.isSome_some, if_true, specComposeName,
          presentStr_some hps, presentStr_getD given]
      | none =>
        cases hpg : presentStr given with
        | some g =>
          simp only [Option.isSome_none, Option.isSome_some, if_true,
            Bool.false_eq_true, if_false, specComposeName, presentStr_some hpg]
        | none =>
          simp only [Option.isSome_none, Bool.false_eq_true, if_false,
            specComposeName]
  · intro as names hne hfa
    have hfa2 : List.Forall₂ (fun a v => composeAuthor a = .ok v) as
        (names.map JValue.str) := by
      rw [List.forall₂_map_right_iff]
      exact hfa
    have hex := exMap_ok_of_forall₂ composeAuthor hfa2
    rcases names with _ | ⟨nm, rest⟩
    · cases hfa
      exact absurd rfl hne
    · cases hfa with
      | cons hxy htail =>
        have hj : pyJoin " and " (JValue.str nm :: List.map JValue.str rest) =
            .ok (String.intercalate " and " (nm :: rest)) :=
          pyJoin_map_str " and " (nm :: rest)
        simp [buildAuthorsField, iterJ, hex, hj]
  · cases elit with
    | some s => simp [composeEditor, helit, specComposeEditorName]
    | none =>
      simp only [Option.map_none'] at helit
      simp only [composeEditor, helit, hefam, hegiv]
      rw [jTruthy_strOpt egiv]
      cases hpg : presentStr egiv with
      | some g =>
        simp only [Option.isSome_some, if_true, pyStr_strOpt,
          specComposeEditorName, presentStr_some hpg]
      | none =>
        simp only [Option.isSome_none, Bool.false_eq_true, if_false,
          strOpt_getD, specComposeEditorName]
  · intro es names hne hfa
    have hfa2 : List.Forall₂ (fun e v => composeEditor e = .ok v) es
        (names.map JValue.str) := by
      rw [List.forall₂_map_right_iff]
      exact hfa
    have hex := exMap_ok_of_forall₂ composeEditor hfa2
    rcases names with _ | ⟨nm, rest⟩
    · cases hfa
      exact absurd rfl hne
    · cases hfa with
      | cons hxy htail =>
        have hj : pyJoin " and " (JValue.str nm :: List.map JValue.str rest) =
            .ok (String.intercalate " and " (nm :: rest)) :=
          pyJoin_map_str " and " (nm :: rest)
        simp [buildEditorsField, iterJ, hex, hj]

/-- C9 witness: a particle-family-given author, a suffix author, a
family-only author, a literal author, the joined author field on a
two-name list, and editors composed from family and given alone (the
suffix-carrying editor is composed without it), with the joined editor
field. -/
theorem C9_name_composition_amended_witness :
    composeAuthor (JValue.obj [("non-dropping-particle", JValue.str "van"),
      ("family", JValue.str "Gogh"), ("given", JValue.str "Vincent")]) =
      .ok (JValue.str "van Gogh, Vincent") ∧
    composeAuthor (JValue.obj [("family", JValue.str "King"),
      ("given", JValue.str "Martin"), ("suffix", JValue.str "Jr.")]) =
      .ok (JValue.str "King, Jr., Martin") ∧
    composeAuthor (JValue.obj [("family", JValue.str "Plato")]) =
      .ok (JValue.str "Plato") ∧
    composeAuthor (JValue.obj [("literal", JValue.str "ACME Corp")]) =
      .ok (JValue.str "ACME Corp") ∧
    buildAuthorsField (JValue.arr
      [JValue.obj [("family", JValue.str "Doe"), ("given", JValue.str "Jane")],
       JValue.obj [("literal", JValue.str "ACME Corp")]]) =
      .ok (some "  author = \x7bDoe, Jane and ACME Corp\x7d") ∧
    composeEditor (JValue.obj [("family", JValue.str "King"),
      ("given", JValue.str "Martin"), ("suffix", JValue.str "Jr.")]) =
      .ok (JValue.str "King, Martin") ∧
    composeEditor (JValue.obj [("family", JValue.str "Plato")]) =
      .ok (JValue.str "Plato") ∧
    buildEditorsField (JValue.arr
      [JValue.obj [("family", JValue.str "Doe"), ("given", JValue.str "Jane")],
       JValue.obj [("literal", JValue.str "ACME Corp")]]) =
      .ok (some "  editor = \x7bDoe, Jane and ACME Corp\x7d") := by
  have h1 := C9_name_composition_amended
    [("non-dropping-particle", JValue.str "van"), ("family", JValue.str "Gogh"),
     ("given", JValue.str "Vincent")] []
    none (some "van") (some "Gogh") (some "Vincent") none none none none
    rfl rfl rfl rfl rfl rfl rfl rfl
  have h2 := C9_name_composition_amended
    [("family", JValue.str "King"), ("given", JValue.str "Martin"),
     ("suffix", JValue.str "Jr.")]
    [("family", JValue.str "King"), ("given", JValue.str "Martin"),
     ("suffix", JValue.str "Jr.")]
    none none (some "King") (some "Martin") (some "Jr.")
    none (some "King") (some "Martin")
    rfl rfl rfl rfl rfl rfl rfl rfl
  have h3 := C9_name_composition_amended
    [("family", JValue.str "Plato")] [("family", JValue.str "Plato")]
    none none (some "Plato") none none none (some "Plato") none
    rfl rfl rfl rfl rfl rfl rfl rfl
  have h4 := C9_name_composition_amended
    [("literal", JValue.str "ACME Corp")] []
    (some "ACME Corp") none none none none none none none
    rfl rfl rfl rfl rfl rfl rfl rfl
  have hfa : List.Forall₂ (fun a nm => composeAuthor a = .ok (JValue.str nm))
      [JValue.obj [("family", JValue.str "Doe"), ("given", JValue.str "Jane")],
       JValue.obj [("literal", JValue.str "ACME Corp")]]
      ["Doe, Jane", "ACME Corp"] :=
    .cons (by rfl) (.cons (by rfl) .nil)
  have h5 := h4.2.1 _ _ (by simp) hfa
  have hfe : List.Forall₂ (fun e nm => composeEditor e = .ok (JValue.str nm))
      [JValue.obj [("family", JValue.str "Doe"), ("given", JValue.str "Jane")],
       JValue.obj [("literal", JValue.str "ACME Corp")]]
      ["Doe, Jane", "ACME Corp"] :=
    .cons (by rfl) (.cons (by rfl) .nil)
  have h6 := h4.2.2.2 _ _ (by simp) hfe
  exact ⟨h1.1.trans (by rfl), h2.1.trans (by rfl), h3.1.trans (by rfl),
    h4.1.trans (by rfl), h5.trans (by rfl), h2.2.2.1.trans (by rfl),
    h3.2.2.1.trans (by rfl), h6.trans (by rfl)⟩

/-! ### C7 and C10 -/

theorem typstKeys_fallback (items : List (List (String × JValue))) :
    ∀ i : Nat, exMap (fun p =>
      match p.2 with
      | JValue.obj kvs => (.ok (typstItemKey p.1 kvs) : Except String JValue)
      | _ => .error "AttributeError: object has no attribute get")
      (enumFromN i (items.map JValue.obj)) =
      .ok ((enumFromN i items).map fun p => typstItemKey p.1 p.2) := by
  induction items with
  | nil => intro i; rfl
  | cons kvs rest ih =>
    intro i
    simp [enumFromN, exMap, ih (i + 1)]

theorem clusterKeys_of_forall₂ {cl : List (List (String × JValue))}
    {idl : List JValue}
    (h : List.Forall₂ (fun kvs v => jLookup kvs "id" = some v) cl idl) :
    clusterKeys (.arr (cl.map JValue.obj)) = .ok idl := by
  simp only [clusterKeys, iterJ, List.filterMap_map]
  induction h with
  | nil => rfl
  | cons hxy _ ih =>
    simp only [Except.ok.injEq] at ih
    simp [List.filterMap_cons, hxy, ih]

/-- C7: the ordered citation keys of the generated program are the
flattening of the citation clusters (preserving cluster order and
within-cluster order, taking each entry's id) when clusters are present,
and every input record's id (present or backfilled) in input order
otherwise; and the references-list directive is appended to the program
exactly when the style text contains the `<bibliography` construct. -/
theorem C7_generated_keys (f : TestFixture) (bib_path csl_path : String) :
    (∀ (clusters : List (List (List (String × JValue)))) (ids : List (List JValue)),
      f.citation_items =
        some (.arr (clusters.map fun cl => .arr (cl.map JValue.obj))) →
      clusters ≠ [] →
      List.Forall₂ (List.Forall₂ fun kvs v => jLookup kvs "id" = some v)
        clusters ids →
      typstKeys f = .ok ids.flatten) ∧
    (optTruthy f.citation_items = false →
      ∀ items : List (List (String × JValue)),
        f.input_data = .arr (items.map JValue.obj) →
        typstKeys f = .ok ((enumFromN 0 items).map fun p => typstItemKey p.1 p.2)) ∧
    (∀ keys, typstKeys f = .ok keys →
      generate_typst_test f bib_path csl_path =
        .ok (typstHeader f bib_path csl_path keys ++
          (if containsSub f.csl "<bibliography" then "#csl-bibliography()" else "")
          ++ "\n")) := by
  refine ⟨?_, ?_, ?_⟩
  · intro clusters ids hci hne hfa
    have htr2 : optTruthy (some (JValue.arr
        (clusters.map fun cl => JValue.arr (cl.map JValue.obj)))) = true := by
      rcases clusters with _ | ⟨c, cs⟩
      · exact absurd rfl hne
      · rfl
    have hforall : List.Forall₂
        (fun cl idl => clusterKeys (.arr (cl.map JValue.obj)) = .ok idl)
        clusters ids :=
      hfa.imp fun cl idl h => clusterKeys_of_forall₂ h
    have hex : exMap (fun cl => clusterKeys (.arr (cl.map JValue.obj))) clusters =
        .ok ids := exMap_ok_of_forall₂ _ hforall
    simp only [typstKeys, hci, Option.getD_some, iterJ]
    rw [exMap_map]
    rw [hex]
    simp [htr2]
  · intro hci items hinput
    simp only [typstKeys, hci, Bool.false_eq_true, if_false, hinput, iterJ]
    exact typstKeys_fallback items 0
  · intro keys hk
    simp only [generate_typst_test, hk]

/-- C7 witness: cluster keys are flattened in order on a two-cluster
fixture; without clusters every record id is used; the directive is
appended exactly when the style has a bibliography construct. -/
theorem C7_generated_keys_witness :
    typstKeys fxCI = .ok [JValue.str "A", JValue.str "B", JValue.str "C"] ∧
    typstKeys fx0 = .ok [JValue.str "X"] ∧
    generate_typst_test fx0 "t.bib" "t.csl" =
      .ok (typstHeader fx0 "t.bib" "t.csl" [JValue.str "X"] ++
        "#csl-bibliography()" ++ "\n") := by
  have hfa : List.Forall₂ (List.Forall₂ fun kvs v => jLookup kvs "id" = some v)
      [[[("id", JValue.str "A")], [("id", JValue.str "B")]],
       [[("id", JValue.str "C")]]]
      [[JValue.str "A", JValue.str "B"], [JValue.str "C"]] :=
    .cons (.cons (by rfl) (.cons (by rfl) .nil)) (.cons (.cons (by rfl) .nil) .nil)
  have h1 := (C7_generated_keys fxCI "t.bib" "t.csl").1
    [[[("id", JValue.str "A")], [("id", JValue.str "B")]],
     [[("id", JValue.str "C")]]]
    [[JValue.str "A", JValue.str "B"], [JValue.str "C"]]
    (by rfl) (by simp) hfa
  have h2 := (C7_generated_keys fx0 "t.bib" "t.csl").2.1 (by rfl)
    [[("id", JValue.str "X"), ("title", JValue.str "T")]] (by rfl)
  have h2k : typstKeys fx0 = .ok [JValue.str "X"] := h2.trans (by rfl)
  have h3 := (C7_generated_keys fx0 "t.bib" "t.csl").2.2 [JValue.str "X"] h2k
  exact ⟨h1.trans (by rfl), h2k, h3.trans (by rfl)⟩

/-- C10: the key expression of the test generator and the id expression
of the record adapter are the same function of position and record, so
for every fixture without citation clusters the generated citation keys
are exactly the adapted entry keys (present id or backfilled `ITEM-<k>`),
every generated citation references an existing adapted entry, and each
serialized entry block embeds that same id right after its type tag. -/
theorem C10_key_consistency :
    (∀ (i : Nat) (kvs : List (String × JValue)),
      typstItemKey i kvs = bibtexItemId i kvs) ∧
    (∀ (f : TestFixture) (items : List (List (String × JValue))),
      optTruthy f.citation_items = false →
      f.input_data = .arr (items.map JValue.obj) →
      typstKeys f = .ok (bibtexIds items) ∧
      (∀ keys, typstKeys f = .ok keys → ∀ k ∈ keys, k ∈ bibtexIds items)) ∧
    (∀ (i : Nat) (kvs : List (String × JValue)) (s : String),
      bibtexEntry i (.obj kvs) = .ok s →
      ∃ t fields, s = "@" ++ t ++ "\x7b" ++ pyStr (bibtexItemId i kvs) ++ ",\n" ++
        String.intercalate ",\n" fields ++ "\n\x7d") := by
  refine ⟨fun i kvs => rfl, ?_, ?_⟩
  · intro f items hci hinput
    have hkeys : typstKeys f = .ok (bibtexIds items) := by
      simp only [typstKeys, hci, Bool.false_eq_true, if_false, hinput, iterJ]
      exact typstKeys_fallback items 0
    refine ⟨hkeys, ?_⟩
    intro keys hk k hkmem
    rw [hkeys] at hk
    cases hk
    exact hkmem
  · intro i kvs s hok
    simp only [bibtexEntry] at hok
    cases htype : bibtexItemType kvs with
    | error e =>
      rw [htype] at hok
      simp at hok
    | ok t =>
      rw [htype] at hok
      cases hauth : nameFields buildAuthorsField (jLookup kvs "author") with
      | error e =>
        rw [hauth] at hok
        simp at hok
      | ok afs =>
        rw [hauth] at hok
        cases hed : nameFields buildEditorsField (jLookup kvs "editor") with
        | error e =>
          rw [hed] at hok
          simp at hok
        | ok efs =>
          rw [hed] at hok
          cases hdf : (match jLookup kvs "issued" with
                       | some iv => issuedFields iv
                       | none => (.ok [] : Except String (List String))) with
          | error e =>
            rw [hdf] at hok
            simp at hok
          | ok dfs =>
            rw [hdf] at hok
            simp only [Except.ok.injEq] at hok
            exact ⟨t, _, hok.symm⟩

/-- C10 witness: on `fx0` (no clusters, one record with id X) the
generated keys equal the adapted entry keys, the key is among the entry
ids, and the serialized entry embeds the same id. -/
theorem C10_key_consistency_witness :
    typstItemKey 0 [] = bibtexItemId 0 [] ∧
    typstKeys fx0 =
      .ok (bibtexIds [[("id", JValue.str "X"), ("title", JValue.str "T")]]) ∧
    (∃ t fields, fx0bib = "@" ++ t ++ "\x7b" ++
      pyStr (bibtexItemId 0 [("id", JValue.str "X"), ("title", JValue.str "T")]) ++
      ",\n" ++ String.intercalate ",\n" fields ++ "\n\x7d") := by
  have h1 := C10_key_consistency.1 0 []
  have h2 := (C10_key_consistency.2.1 fx0
    [[("id", JValue.str "X"), ("title", JValue.str "T")]] (by rfl) (by rfl)).1
  have h3 := C10_key_consistency.2.2 0
    [("id", JValue.str "X"), ("title", JValue.str "T")] fx0bib (by rfl)
  exact ⟨h1, h2, h3⟩

/-! ### C5 -/

/-- C5: for a citation-mode fixture whose style has no references-list
construct (and has a closing style tag), the Policy A Style Preprocessor
splices the minimal single-field bibliography before the closing tag, so
the preprocessed style contains the construct and Policy A does not skip
the fixture, while Policy B hands the style through unchanged and
`run_test` skips the fixture with the citation-only reason; the two
policies are explicit, named, switchable behaviors of the same
dispatcher. -/
theorem C5_citation_only_policies (f : TestFixture) (env : RunEnv)
    (pre post : List Char)
    (hmode : f.mode = "citation")
    (hnobib : containsSub f.csl "<bibliography" = false)
    (hclose : splitFirst "</style>".data f.csl.data = some (pre, post))
    (habbr : skipAbbreviations f = false)
    (hcslm : skipCslM f = false) :
    containsSub (preprocessStyle .policyA f) "<bibliography" = true ∧
    citationOnlySkipReason .policyA f = none ∧
    preprocessStyle .policyB f = f.csl ∧
    citationOnlySkipReason .policyB f =
      some "Citation-only test (no bibliography in CSL)" ∧
    run_test f env =
      skipVerdict f "Citation-only test (no bibliography in CSL)" := by
  have hco : skipCitationOnly f = true := by
    simp [skipCitationOnly, hmode, hnobib]
  have hns : skipNosort f = false := by
    simp [skipNosort, hmode]
  have hcond : (f.mode == "citation" && !containsSub f.csl "<bibliography") = true := by
    simp [hmode, hnobib]
  refine ⟨?_, rfl, rfl, ?_, ?_⟩
  · simp only [preprocessStyle, policyA_preprocess, hcond, if_true, hclose]
    have hshim : minimalBibliographyShim.data = "<bibliography".data ++
        ("><layout><text variable=\"title\"/></layout></bibliography>").data := by rfl
    show (splitFirst ("<bibliography").data
      (String.mk pre ++ minimalBibliographyShim ++ "</style>" ++ String.mk post).data).isSome
        = true
    have hdata : (String.mk pre ++ minimalBibliographyShim ++ "</style>" ++
        String.mk post).data =
        pre ++ (("<bibliography").data ++
          (("><layout><text variable=\"title\"/></layout></bibliography>").data ++
           ("</style>".data ++ post))) := by
      simp only [String.data_append, hshim]
      simp [List.append_assoc]
    rw [hdata]
    exact splitFirst_isSome_append ("<bibliography").data (by decide) pre _
  · simp [citationOnlySkipReason, hco]
  · simp [run_test, habbr, hns, hcslm, hco, skipVerdict]

/-- C5 witness: the two policies observed on a concrete citation-only
fixture. -/
theorem C5_citation_only_policies_witness :
    containsSub (preprocessStyle .policyA fxC5) "<bibliography" = true ∧
    citationOnlySkipReason .policyA fxC5 = none ∧
    preprocessStyle .policyB fxC5 = fxC5.csl ∧
    run_test fxC5 env0 =
      skipVerdict fxC5 "Citation-only test (no bibliography in CSL)" := by
  have h := C5_citation_only_policies fxC5 env0
    ("<style><citation/>").data [] (by rfl) (by rfl) (by rfl) (by rfl) (by rfl)
  exact ⟨h.1, h.2.1, h.2.2.1, h.2.2.2.2⟩
